import Mathlib

/-!
Shallow embedding of the stock-data-warehouse normalization pipeline
(`fetch_data.py`): statement-row alias resolution, TTM aggregation,
FX-rate lookup with fail-open fallback, sector classification, growth
estimation with market-cap clamping, and the snapshot assembler
`fetch_stock_data`.

Numbers are modelled as rationals. yfinance `info` values that may be
absent are `Option ℚ` / `Option String`; Python truthiness (`None` and
`0` / `""` are falsy) is modelled explicitly. A pandas NaN cell inside a
statement row is `none`. The network is an explicit oracle parameter, so
"no network access" and exception behaviour become facts about how the
oracle argument is (not) consulted.
-/

/-- Python `str.upper()` (ASCII data in this pipeline). -/
def strUpper (s : String) : String := ⟨s.data.map Char.toUpper⟩

/-- Python `a or b` for optional numbers: `None` and `0` are falsy. -/
def pyOrQ (a b : Option ℚ) : Option ℚ :=
  match a with
  | some x => if x ≠ 0 then some x else b
  | none => b

/-- Python `a or b` for optional strings: `None` and `""` are falsy. -/
def pyOrS (a b : Option String) : Option String :=
  match a with
  | some s => if s ≠ "" then some s else b
  | none => b

/-- `pre` is a leading segment of `l`. -/
def leadsList : List Char → List Char → Bool
  | [], _ => true
  | _ :: _, [] => false
  | p :: ps, h :: hs => p = h && leadsList ps hs

/-- `pat` occurs contiguously somewhere in `l` (Python `pat in s`). -/
def occursIn (pat : List Char) : List Char → Bool
  | [] => pat.isEmpty
  | h :: hs => leadsList pat (h :: hs) || occursIn pat hs

/-- Python substring test `pat in hay`. -/
def strHas (hay pat : String) : Bool := occursIn pat.toList hay.toList

/-- Banker's rounding of a rational to an integer (Python `round`,
half-to-even; float representation artifacts are not modelled). -/
def roundHalfEvenZ (q : ℚ) : ℤ :=
  let f : ℤ := ⌊q⌋
  let r : ℚ := q - (f : ℚ)
  if r < 1 / 2 then f
  else if 1 / 2 < r then f + 1
  else if f % 2 = 0 then f else f + 1

/-- Python `round(x, 2)`. -/
def round2 (q : ℚ) : ℚ := ((roundHalfEvenZ (q * 100) : ℤ) : ℚ) / 100

/-- A quarterly statement DataFrame: row label → newest-first period
values; a `none` cell is NaN. -/
structure RawStatementTable where
  rows : List (String × List (Option ℚ))
deriving Repr, DecidableEq

/-- The yfinance `info` mapping, restricted to the fields the pipeline
reads. Any field may be absent. `peg` holds the `pegRatio` entry. -/
structure Info where
  currentPrice : Option ℚ := none
  previousClose : Option ℚ := none
  financialCurrency : Option String := none
  marketCap : Option ℚ := none
  trailingPE : Option ℚ := none
  peg : Option ℚ := none
  revenueGrowth : Option ℚ := none
  sharesOutstanding : Option ℚ := none
  beta : Option ℚ := none
  forwardEps : Option ℚ := none
  shortName : Option String := none
  longName : Option String := none
  sector : Option String := none
  industry : Option String := none
  symbol : Option String := none
deriving Repr, DecidableEq

/-- Outcome of a yfinance FX quote request: the request raises, or
returns the three price fields consulted by `get_exchange_rate`
(`currentPrice`, `regularMarketPrice`, `previousClose`). -/
inductive FxOutcome where
  | fail : FxOutcome
  | ok : Option ℚ → Option ℚ → Option ℚ → FxOutcome
deriving Repr, DecidableEq

/-- `df.loc[key]` guarded by `key in df.index`: the row labelled `key`,
if present (first occurrence wins for duplicate labels). -/
def lookupStr {α : Type} : List (String × α) → String → Option α
  | [], _ => none
  | p :: ps, k => if p.1 = k then some p.2 else lookupStr ps k

/-- The `for key in keys: if key in df.index: return df.loc[key]` loop of
`safe_get_row`. -/
def lookupAlias (rows : List (String × List (Option ℚ))) :
    List String → List (Option ℚ)
  | [] => []
  | k :: ks =>
    match lookupStr rows k with
    | some r => r
    | none => lookupAlias rows ks

/-- `safe_get_row(df, keys)`: the first alias found in the row index
wins; an absent (`None`) or empty table yields an empty Series. -/
def safe_get_row (df : Option RawStatementTable) (keys : List String) :
    List (Option ℚ) :=
  match df with
  | none => []
  | some t => if t.rows.isEmpty then [] else lookupAlias t.rows keys

/-- `get_ttm_value(quarterly_df, keys)`: sum of the first four periods of
the resolved row, NaN filled with 0; 0 when the row is empty. -/
def get_ttm_value (df : Option RawStatementTable) (keys : List String) : ℚ :=
  let row := safe_get_row df keys
  if row.isEmpty then 0
  else (((row.take 4).map (fun o => o.getD 0)).sum)

/-- `get_exchange_rate(currency_code)`: falsy or USD code short-circuits
to 1.0 without touching the network; otherwise the `<CODE>=X` quote is
requested from the oracle `net`, with fail-open 1.0 on an exception, an
absent rate, or a non-positive rate. -/
def get_exchange_rate (currency_code : Option String)
    (net : String → FxOutcome) : ℚ :=
  match currency_code with
  | none => 1
  | some c =>
    if c = "" then 1
    else if strUpper c = "USD" then 1
    else
      match net (strUpper c ++ "=X") with
      | FxOutcome.fail => 1
      | FxOutcome.ok cp rmp pc =>
        match pyOrQ (pyOrQ cp rmp) pc with
        | some r => if 0 < r then r else 1
        | none => 1

/-- Steps 1–2 of `calculate_sane_growth_rate`: PEG inversion when
trailing P/E and PEG are truthy with PEG positive, else
`(revenueGrowth or 0.05) * 100`. -/
def impliedGrowth (info : Info) : ℚ :=
  let implied1 : ℚ :=
    match info.trailingPE, info.peg with
    | some pe, some peg => if pe ≠ 0 ∧ peg ≠ 0 ∧ 0 < peg then pe / peg else 0
    | _, _ => 0
  if implied1 = 0 then
    (match info.revenueGrowth with
     | some g => if g ≠ 0 then g else 1 / 20
     | none => 1 / 20) * 100
  else implied1

/-- Python `pe and pe < 40`: the trailing P/E entry is truthy and below
40. -/
def peTruthyBelow40 (pe : Option ℚ) : Bool :=
  match pe with
  | some x => decide (x ≠ 0) && decide (x < 40)
  | none => false

/-- `calculate_sane_growth_rate(info)`: implied growth, then the
mega-cap clamp — only above a 200e9 market cap, with `20.0` when P/E is
truthy and `< 40` and growth `> 25`, else `45.0` when growth `> 50` —
rounded to 2 decimals. -/
def calculate_sane_growth_rate (info : Info) : ℚ :=
  let market_cap := info.marketCap.getD 0
  let implied_growth := impliedGrowth info
  let final_growth : ℚ :=
    if 200000000000 < market_cap then
      if peTruthyBelow40 info.trailingPE ∧ 25 < implied_growth then 20
      else if 50 < implied_growth then 45
      else implied_growth
    else implied_growth
  round2 final_growth

/-- `determine_sector(info)`: ordered substring matching over the raw
`industry` / `sector` strings (absent fields default to `""`). -/
def determine_sector (info : Info) : String :=
  let sector := info.sector.getD ""
  let industry := info.industry.getD ""
  if strHas industry "Semiconductor" || strHas sector "Semiconductor" then
    "Semiconductor"
  else if strHas industry "Software" || strHas sector "Technology Services" then
    "SaaS"
  else if strHas industry "Consumer Electronics" ||
      strHas industry "Computer Hardware" then "Hardware"
  else if strHas industry "Bank" || strHas sector "Financial" ||
      strHas industry "Credit" then "Financial"
  else if strHas industry "Biotechnology" || strHas industry "Drug" then
    "BioTech"
  else "General"

/-- `for k in keys: if k in recent_bs: x = float(recent_bs[k]); break`
over the most recent balance-sheet column; `some 0` when no key is
present (the initialiser), `none` when the matched cell is NaN. -/
def firstBalanceVal (pairs : List (String × Option ℚ)) :
    List String → Option ℚ
  | [] => some 0
  | k :: ks =>
    match lookupStr pairs k with
    | some v => v
    | none => firstBalanceVal pairs ks

/-- The assembled record of `fetch_stock_data` (the `last_updated`
wall-clock field is outside the embedding). `total_debt` and
`cash_and_equivalents` are `Option ℚ` because a NaN balance-sheet cell
propagates as `float('nan')`; `none` encodes that NaN. -/
structure StockSnapshot where
  ticker : String
  name : Option String
  price : ℚ
  market_cap : ℚ
  revenue_ttm : ℚ
  ocf_ttm : ℚ
  capex_ttm : ℚ
  sbc_ttm : ℚ
  buyback_ttm : ℚ
  total_debt : Option ℚ
  cash_and_equivalents : Option ℚ
  shares_outstanding : ℚ
  beta : ℚ
  analyst_growth_estimate : ℚ
  forward_eps : ℚ
  sector_type : String
  currency_code : String
deriving Repr, DecidableEq

/-- `fetch_stock_data(ticker_symbol)`. The provider is explicit: `info`,
the three quarterly tables, and the FX oracle `net` are its responses
for this ticker. `none` is the "no price found" (or exception) rejection
path. The try/except wrapper maps provider exceptions to `none`; in this
pure embedding the provider responses are already materialised, so only
the explicit rejection branch remains. -/
def fetch_stock_data (ticker_symbol : String) (info : Info)
    (q_cashflow q_income q_balance : RawStatementTable)
    (net : String → FxOutcome) : Option StockSnapshot :=
  match pyOrQ info.currentPrice info.previousClose with
  | none => none
  | some price =>
    if price = 0 then none
    else
      let fin_currency := info.financialCurrency.getD "USD"
      let fx_rate : ℚ :=
        if fin_currency ≠ "USD" then get_exchange_rate (some fin_currency) net
        else 1
      let raw_rev := get_ttm_value (some q_income)
        ["Total Revenue", "Operating Revenue"]
      let raw_ocf := get_ttm_value (some q_cashflow)
        ["Operating Cash Flow", "Total Cash From Operating Activities"]
      let raw_capex := |get_ttm_value (some q_cashflow)
        ["Capital Expenditure", "Capital Expenditures"]|
      let raw_sbc := get_ttm_value (some q_cashflow)
        ["Stock Based Compensation", "Issuance Of Stock"]
      let raw_buyback := |get_ttm_value (some q_cashflow)
        ["Repurchase Of Capital Stock", "Common Stock Repurchased",
         "Purchase Of Treasury Stock"]|
      let shares := info.sharesOutstanding.getD 0
      let recent_bs : List (String × Option ℚ) :=
        q_balance.rows.map (fun p => (p.1, p.2.headD none))
      let raw_debt : Option ℚ :=
        if q_balance.rows.isEmpty then some 0
        else firstBalanceVal recent_bs ["Total Debt", "Long Term Debt"]
      let raw_cash : Option ℚ :=
        if q_balance.rows.isEmpty then some 0
        else firstBalanceVal recent_bs
          ["Cash And Cash Equivalents", "Cash Financial"]
      let growth_rate := calculate_sane_growth_rate info
      let raw_fwd_eps := info.forwardEps.getD 0
      let forward_eps : ℚ :=
        if 5 < fx_rate ∧ 0 < raw_fwd_eps then raw_fwd_eps / fx_rate
        else raw_fwd_eps
      some
        { ticker := ticker_symbol
          name := pyOrS info.shortName info.longName
          price := price
          market_cap := info.marketCap.getD 0
          revenue_ttm := raw_rev / fx_rate
          ocf_ttm := raw_ocf / fx_rate
          capex_ttm := raw_capex / fx_rate
          sbc_ttm := raw_sbc / fx_rate
          buyback_ttm := raw_buyback / fx_rate
          total_debt := raw_debt.map (fun d => d / fx_rate)
          cash_and_equivalents := raw_cash.map (fun c => c / fx_rate)
          shares_outstanding := shares
          beta := info.beta.getD 1
          analyst_growth_estimate := growth_rate
          forward_eps := forward_eps
          sector_type := determine_sector info
          currency_code := "USD" }

/-- A row built from a single period sequence, as the spec's `ttm(row)`
examples read it: a one-row table resolved by its own label. -/
def ttmRow (vs : List (Option ℚ)) : ℚ :=
  get_ttm_value (some ⟨[("R", vs)]⟩) ["R"]

/-- An empty statement DataFrame. -/
def emptyTable : RawStatementTable := ⟨[]⟩

/-- An FX oracle whose every request raises. -/
def fxFail : String → FxOutcome := fun _ => FxOutcome.fail

/-- An FX oracle returning a fixed `currentPrice` quote of 32. -/
def fxQuote32 : String → FxOutcome := fun _ => FxOutcome.ok (some 32) none none

/-- The end-to-end scenario's `info`: reference (USD) currency,
sector "Software", market cap 50e9, trailing P/E 30, PEG 1.5, beta 1.1
(price must be present for a snapshot to be produced at all; 100 here). -/
def c1Info : Info :=
  { currentPrice := some 100, financialCurrency := some "USD",
    marketCap := some 50000000000, trailingPE := some 30, peg := some (3 / 2),
    beta := some (11 / 10), sector := some "Software" }

/-- The end-to-end scenario's quarterly income statement. -/
def c1Income : RawStatementTable :=
  ⟨[("Total Revenue", [some 100, some 100, some 100, some 100])]⟩

/-- The end-to-end scenario's quarterly cash-flow statement. -/
def c1CashFlow : RawStatementTable :=
  ⟨[("Operating Cash Flow", [some 30, some 30, some 30, some 30]),
    ("Capital Expenditure", [some (-10), some (-10), some (-10), some (-10)])]⟩

/-- A SaaS-classified security (industry "Software") with a 50e9 market
cap whose PEG-implied growth is 100 — far above the spec's SaaS bound. -/
def c6Info : Info :=
  { marketCap := some 50000000000, trailingPE := some 100, peg := some 1,
    industry := some "Software" }

/-- A 300e9-market-cap security with trailing P/E 30 and PEG 1: implied
growth 30, in the P/E-gated clamp branch. -/
def c6CapInfo : Info :=
  { marketCap := some 300000000000, trailingPE := some 30, peg := some 1 }

/-- A 600e9-market-cap security with trailing P/E 100 and PEG 2: implied
growth exactly 50 with a non-small P/E. -/
def c7Info : Info :=
  { marketCap := some 600000000000, trailingPE := some 100, peg := some 2 }

/-- A 600e9-market-cap security with trailing P/E 25 and PEG 0.5:
implied growth exactly 50 with P/E below 40. -/
def c7LowPeInfo : Info :=
  { marketCap := some 600000000000, trailingPE := some 25, peg := some (1 / 2) }

/-- Info with a price and a raw beta of 3.0. -/
def c8Info : Info := { currentPrice := some 10, beta := some 3 }

/-- Info with a price and no beta field. -/
def c8NoBetaInfo : Info := { currentPrice := some 10 }

/-- Info carrying nothing but a price, for the ticker-field claims. -/
def c9Info : Info := { currentPrice := some 10 }

/-- When no alias is present in the row index, the alias loop yields the
empty Series. -/
lemma lookupAlias_all_none (rows : List (String × List (Option ℚ)))
    (keys : List String) (h : ∀ k ∈ keys, lookupStr rows k = none) :
    lookupAlias rows keys = [] := by
  induction keys with
  | nil => rfl
  | cons k ks ih =>
    have hk := h k (List.mem_cons_self k ks)
    simp only [lookupAlias, hk]
    exact ih (fun k' hk' => h k' (List.mem_cons_of_mem k hk'))

/-- The alias loop returns the first alias present in the row index. -/
lemma lookupAlias_first_hit (rows : List (String × List (Option ℚ)))
    (ks1 : List String) (k : String) (ks2 : List String)
    (r : List (Option ℚ)) (hk : lookupStr rows k = some r)
    (hmiss : ∀ k' ∈ ks1, lookupStr rows k' = none) :
    lookupAlias rows (ks1 ++ k :: ks2) = r := by
  induction ks1 with
  | nil => simp only [List.nil_append, lookupAlias, hk]
  | cons a as ih =>
    have ha := hmiss a (List.mem_cons_self a as)
    simp only [List.cons_append, lookupAlias, ha]
    exact ih (fun k' hk' => hmiss k' (List.mem_cons_of_mem a hk'))

/-- Claim C2: TTM aggregation sums exactly the first four periods of a
row, treats a missing/null value in that window as zero, returns 0 when
the row is wholly absent (absent table, or no alias present), and on the
spec's examples gives `ttm([]) = 0`, `ttm([10]) = 10`,
`ttm([10,20,30,40,999]) = 100`. -/
theorem C2_ttm_first_four :
    (∀ vs : List (Option ℚ),
      ttmRow vs = ((vs.take 4).map (fun o => o.getD 0)).sum) ∧
    (∀ keys, get_ttm_value none keys = 0) ∧
    (∀ t : RawStatementTable, ∀ keys,
      (∀ k ∈ keys, lookupStr t.rows k = none) →
      get_ttm_value (some t) keys = 0) ∧
    ttmRow [] = 0 ∧
    ttmRow [some 10] = 10 ∧
    ttmRow [some 10, some 20, some 30, some 40, some 999] = 100 := by
  refine ⟨?_, ?_, ?_, ?_, ?_, ?_⟩
  · intro vs
    cases vs <;>
      simp [ttmRow, get_ttm_value, safe_get_row, lookupAlias, lookupStr]
  · intro keys
    rfl
  · intro t keys h
    have hrow := lookupAlias_all_none t.rows keys h
    cases ht : t.rows with
    | nil => simp [get_ttm_value, safe_get_row, ht]
    | cons p ps =>
      rw [ht] at hrow
      simp [get_ttm_value, safe_get_row, ht, hrow]
  · norm_num +decide [ttmRow, get_ttm_value, safe_get_row, lookupAlias,
      lookupStr]
  · norm_num +decide [ttmRow, get_ttm_value, safe_get_row, lookupAlias,
      lookupStr]
  · norm_num +decide [ttmRow, get_ttm_value, safe_get_row, lookupAlias,
      lookupStr]

/-- Claim C2 witness: the third conjunct applied to a concrete table in
which no alias is present. -/
theorem C2_ttm_first_four_witness :
    get_ttm_value (some c1Income) ["No Such Row", "Also Missing"] = 0 := by
  apply C2_ttm_first_four.2.2.1
  intro k hk
  fin_cases hk <;> decide

/-- Claim C3: statement-row resolution returns the first alias present
in the table's row index (first match wins), and the empty result when
the table is absent or no alias is present; with aliases `["A","B"]` and
only `"B"` in the table, `"B"`'s row is returned, and with both present,
`"A"`'s row is returned. -/
theorem C3_alias_first_match :
    (∀ keys, safe_get_row none keys = []) ∧
    (∀ t : RawStatementTable, ∀ keys,
      (∀ k ∈ keys, lookupStr t.rows k = none) →
      safe_get_row (some t) keys = []) ∧
    (∀ rows : List (String × List (Option ℚ)),
      ∀ ks1 : List String, ∀ k : String, ∀ ks2 : List String,
      ∀ r : List (Option ℚ), lookupStr rows k = some r →
      (∀ k' ∈ ks1, lookupStr rows k' = none) →
      safe_get_row (some ⟨rows⟩) (ks1 ++ k :: ks2) = r) ∧
    safe_get_row (some ⟨[("B", [some 2])]⟩) ["A", "B"] = [some 2] ∧
    safe_get_row (some ⟨[("A", [some 1]), ("B", [some 2])]⟩) ["A", "B"]
      = [some 1] := by
  refine ⟨?_, ?_, ?_, ?_, ?_⟩
  · intro keys
    rfl
  · intro t keys h
    have hrow := lookupAlias_all_none t.rows keys h
    cases ht : t.rows with
    | nil => simp [safe_get_row, ht]
    | cons p ps =>
      rw [ht] at hrow
      simp [safe_get_row, ht, hrow]
  · intro rows ks1 k ks2 r hk hmiss
    cases rows with
    | nil => exact absurd hk (by simp [lookupStr])
    | cons p ps =>
      show lookupAlias (p :: ps) (ks1 ++ k :: ks2) = r
      exact lookupAlias_first_hit (p :: ps) ks1 k ks2 r hk hmiss
  · norm_num +decide [safe_get_row, lookupAlias, lookupStr]
  · norm_num +decide [safe_get_row, lookupAlias, lookupStr]

/-- Claim C3 witness: the first-match conjunct applied to a concrete
table where the preferred alias is missing and a later one is present. -/
theorem C3_alias_first_match_witness :
    safe_get_row (some ⟨[("X", [some 5]), ("B", [some 2])]⟩)
      (["A"] ++ "B" :: ["C"]) = [some 2] := by
  apply C3_alias_first_match.2.2.1
  · decide
  · intro k hk
    fin_cases hk
    decide

/-- Claim C1 counterexample: the end-to-end scenario — info `sector` =
"Software" with no `industry` field — classifies as "General", not the
claimed "SaaS": the SaaS rule requires "Software" inside the `industry`
string or "Technology Services" inside the `sector` string. -/
theorem C1_scenario_counterexample :
    (fetch_stock_data "TEST" c1Info c1CashFlow c1Income emptyTable
        fxFail).map StockSnapshot.sector_type = some "General" ∧
    some "General" ≠ some "SaaS" := by
  constructor
  · norm_num +decide [fetch_stock_data, get_ttm_value, safe_get_row,
      lookupAlias, lookupStr, get_exchange_rate, calculate_sane_growth_rate,
      impliedGrowth, determine_sector, strHas, occursIn, leadsList, round2,
      roundHalfEvenZ, pyOrQ, pyOrS, peTruthyBelow40, firstBalanceVal, c1Info,
      c1Income, c1CashFlow, emptyTable, fxFail]
  · decide

/-- Claim C1 amended: on the end-to-end scenario input the assembled
snapshot has `revenue_ttm = 400`, `ocf_ttm = 120`, `capex_ttm = 40`,
`analyst_growth_estimate = 20.0` and `beta = 1.1` as claimed, but
`sector_type = "General"` (not "SaaS"), because the classifier's SaaS
rule matches the `industry` field, which is absent here. -/
theorem C1_scenario_amended :
    (fetch_stock_data "TEST" c1Info c1CashFlow c1Income emptyTable
        fxFail).map
      (fun s => (s.revenue_ttm, s.ocf_ttm, s.capex_ttm, s.sector_type,
        s.analyst_growth_estimate, s.beta))
    = some (400, 120, 40, "General", 20, 11 / 10) := by
  norm_num +decide [fetch_stock_data, get_ttm_value, safe_get_row,
    lookupAlias, lookupStr, get_exchange_rate, calculate_sane_growth_rate,
    impliedGrowth, determine_sector, strHas, occursIn, leadsList, round2,
    roundHalfEvenZ, pyOrQ, pyOrS, peTruthyBelow40, firstBalanceVal, c1Info,
    c1Income, c1CashFlow, emptyTable, fxFail]

/-- Claim C4: when the reporting currency is the reference currency USD
(or unspecified, which defaults to USD), the exchange rate is exactly 1,
dividing by it is the identity on every monetary value, and the
assembler's result does not depend on the FX oracle at all (no network
access). -/
theorem C4_usd_is_identity :
    (∀ net, get_exchange_rate (some "USD") net = 1) ∧
    (∀ net, get_exchange_rate none net = 1) ∧
    (∀ x : ℚ, ∀ net, x / get_exchange_rate (some "USD") net = x) ∧
    (∀ t : String, ∀ info : Info,
      ∀ cf inc bs : RawStatementTable, ∀ net net' : String → FxOutcome,
      info.financialCurrency.getD "USD" = "USD" →
      fetch_stock_data t info cf inc bs net
        = fetch_stock_data t info cf inc bs net') := by
  have husd : ∀ net, get_exchange_rate (some "USD") net = 1 := fun _ => rfl
  refine ⟨husd, fun _ => rfl, ?_, ?_⟩
  · intro x net
    rw [husd net]
    exact div_one x
  · intro t info cf inc bs net net' h
    simp [fetch_stock_data, h]

/-- Claim C4 witness: on the end-to-end USD scenario, the assembler
yields the same snapshot under a failing FX oracle and under one quoting
32 — the rate lookup is never consulted. -/
theorem C4_usd_is_identity_witness :
    fetch_stock_data "TEST" c1Info c1CashFlow c1Income emptyTable fxFail
      = fetch_stock_data "TEST" c1Info c1CashFlow c1Income emptyTable
        fxQuote32 :=
  C4_usd_is_identity.2.2.2 "TEST" c1Info c1CashFlow c1Income emptyTable
    fxFail fxQuote32 rfl

/-- Claim C5: when the FX quote request raises, or every price field of
the quote is absent, or the resolved rate is non-positive, the exchange
rate falls back to 1 (fail-open); the lookup never propagates an error
and always yields a positive, usable rate. -/
theorem C5_fx_fail_open :
    (∀ c, get_exchange_rate (some c) fxFail = 1) ∧
    (∀ c, get_exchange_rate (some c) (fun _ => FxOutcome.ok none none none)
      = 1) ∧
    (∀ c : String, ∀ cp rmp pc : Option ℚ, ∀ r : ℚ,
      pyOrQ (pyOrQ cp rmp) pc = some r → r ≤ 0 →
      get_exchange_rate (some c) (fun _ => FxOutcome.ok cp rmp pc) = 1) ∧
    (∀ copt : Option String, ∀ net : String → FxOutcome,
      0 < get_exchange_rate copt net) := by
  refine ⟨?_, ?_, ?_, ?_⟩
  · intro c
    simp [get_exchange_rate, fxFail]
  · intro c
    simp [get_exchange_rate, pyOrQ]
  · intro c cp rmp pc r hr hle
    have hnot : ¬ (0 < r) := not_lt.mpr hle
    simp [get_exchange_rate, hr, hnot]
  · intro copt net
    cases copt with
    | none => norm_num [get_exchange_rate]
    | some c =>
      simp only [get_exchange_rate]
      split
      · norm_num
      · split
        · norm_num
        · cases hnet : net (strUpper c ++ "=X") with
          | fail => norm_num
          | ok cp rmp pc =>
            cases hq : pyOrQ (pyOrQ cp rmp) pc with
            | none =>
              simp only [hq]
              norm_num
            | some r =>
              simp only [hq]
              split
              · assumption
              · norm_num

/-- Claim C5 witness: a quote whose only available field is a
previous-close of 0 (falsy, non-positive) falls back to rate 1. -/
theorem C5_fx_fail_open_witness :
    get_exchange_rate (some "TWD") (fun _ => FxOutcome.ok none none (some 0))
      = 1 :=
  C5_fx_fail_open.2.2.1 "TWD" none none (some 0) 0 rfl (le_refl 0)

/-- Rounding an integer-valued growth figure to 2 decimals returns it
unchanged: 20. -/
lemma round2_twenty : round2 20 = 20 := by
  norm_num [round2, roundHalfEvenZ]

/-- Rounding an integer-valued growth figure to 2 decimals returns it
unchanged: 45. -/
lemma round2_fortyfive : round2 45 = 45 := by
  norm_num [round2, roundHalfEvenZ]

/-- Claim C6 counterexample: a SaaS-classified security (industry
"Software") with implied growth 100 — above the spec's SaaS maximum of
45 — is returned as 100, not capped: the growth estimator has no
per-sector bounds at all. -/
theorem C6_sector_bounds_counterexample :
    determine_sector c6Info = "SaaS" ∧
    calculate_sane_growth_rate c6Info = 100 ∧
    ¬ ((100 : ℚ) ≤ 45) := by
  refine ⟨by decide, ?_, by norm_num⟩
  norm_num +decide [calculate_sane_growth_rate, impliedGrowth,
    peTruthyBelow40, round2, roundHalfEvenZ, c6Info]

/-- Claim C6 amended: the growth estimator consults no per-sector bound
table — its output is independent of the sector/industry fields — and
clamps only by market capitalization: above 200e9, growth is reset to
20.0 when trailing P/E is truthy and below 40 and growth exceeds 25,
else capped to 45.0 when growth exceeds 50; in every other case
(including all caps at or below 200e9) the implied growth is returned
unchanged up to 2-decimal rounding. -/
theorem C6_no_sector_bounds_amended :
    (∀ info : Info, ∀ s i : Option String,
      calculate_sane_growth_rate { info with sector := s, industry := i }
        = calculate_sane_growth_rate info) ∧
    (∀ info : Info, info.marketCap.getD 0 ≤ 200000000000 →
      calculate_sane_growth_rate info = round2 (impliedGrowth info)) ∧
    (∀ info : Info, 200000000000 < info.marketCap.getD 0 →
      peTruthyBelow40 info.trailingPE = true → 25 < impliedGrowth info →
      calculate_sane_growth_rate info = 20) ∧
    (∀ info : Info, 200000000000 < info.marketCap.getD 0 →
      ¬ (peTruthyBelow40 info.trailingPE = true ∧ 25 < impliedGrowth info) →
      50 < impliedGrowth info →
      calculate_sane_growth_rate info = 45) ∧
    (∀ info : Info, 200000000000 < info.marketCap.getD 0 →
      ¬ (peTruthyBelow40 info.trailingPE = true ∧ 25 < impliedGrowth info) →
      impliedGrowth info ≤ 50 →
      calculate_sane_growth_rate info = round2 (impliedGrowth info)) := by
  refine ⟨?_, ?_, ?_, ?_, ?_⟩
  · intro info s i
    rfl
  · intro info h
    simp only [calculate_sane_growth_rate]
    rw [if_neg (not_lt.mpr h)]
  · intro info h1 h2 h3
    simp only [calculate_sane_growth_rate]
    rw [if_pos h1, if_pos ⟨h2, h3⟩]
    exact round2_twenty
  · intro info h1 h2 h3
    simp only [calculate_sane_growth_rate]
    rw [if_pos h1, if_neg h2, if_pos h3]
    exact round2_fortyfive
  · intro info h1 h2 h3
    simp only [calculate_sane_growth_rate]
    rw [if_pos h1, if_neg h2, if_neg (not_lt.mpr h3)]

/-- Claim C6 witness: the 200e9-and-small-P/E clamp applied to a
concrete 300e9 security with implied growth 30. -/
theorem C6_no_sector_bounds_amended_witness :
    calculate_sane_growth_rate c6CapInfo = 20 := by
  apply C6_no_sector_bounds_amended.2.2.1
  · decide
  · decide
  · norm_num [c6CapInfo, impliedGrowth]

/-- Claim C7 counterexample: a 600e9-market-cap (above the claimed
500e9 threshold) security whose implied growth is exactly 50 keeps
growth 50 — not clamped to at most 30: that branch only fires for
growth strictly above 50 (to 45.0), and the 20.0 branch needs P/E < 40. -/
theorem C7_megacap_counterexample :
    impliedGrowth c7Info = 50 ∧
    (500000000000 : ℚ) < c7Info.marketCap.getD 0 ∧
    calculate_sane_growth_rate c7Info = 50 ∧
    ¬ ((50 : ℚ) ≤ 30) := by
  refine ⟨?_, by decide, ?_, by norm_num⟩
  · norm_num [impliedGrowth, c7Info]
  · norm_num +decide [calculate_sane_growth_rate, impliedGrowth,
      peTruthyBelow40, round2, roundHalfEvenZ, c7Info]

/-- Claim C7 amended: the capitalization threshold is 200e9 (not
≈500e9) and there is no force-to-30 rule: above the threshold a growth
input of 50 becomes 20.0 when trailing P/E is truthy and below 40, and
is returned unchanged otherwise; only growth strictly above 50 is
reduced (to 45.0). -/
theorem C7_megacap_amended :
    (∀ info : Info, 200000000000 < info.marketCap.getD 0 →
      peTruthyBelow40 info.trailingPE = true → impliedGrowth info = 50 →
      calculate_sane_growth_rate info = 20) ∧
    (∀ info : Info, 200000000000 < info.marketCap.getD 0 →
      peTruthyBelow40 info.trailingPE = false → impliedGrowth info = 50 →
      calculate_sane_growth_rate info = 50) ∧
    (∀ info : Info, 200000000000 < info.marketCap.getD 0 →
      peTruthyBelow40 info.trailingPE = false → 50 < impliedGrowth info →
      calculate_sane_growth_rate info = 45) := by
  refine ⟨?_, ?_, ?_⟩
  · intro info h1 h2 h3
    simp only [calculate_sane_growth_rate]
    rw [if_pos h1, if_pos ⟨h2, by rw [h3]; norm_num⟩]
    exact round2_twenty
  · intro info h1 h2 h3
    simp only [calculate_sane_growth_rate]
    rw [if_pos h1, if_neg (by simp [h2]), if_neg (by rw [h3]; norm_num), h3]
    norm_num [round2, roundHalfEvenZ]
  · intro info h1 h2 h3
    simp only [calculate_sane_growth_rate]
    rw [if_pos h1, if_neg (by simp [h2]), if_pos h3]
    exact round2_fortyfive

/-- Claim C7 witness: a 600e9-cap security with P/E 25 and PEG 0.5 —
implied growth exactly 50 and P/E below 40 — is clamped to 20. -/
theorem C7_megacap_amended_witness :
    calculate_sane_growth_rate c7LowPeInfo = 20 := by
  apply C7_megacap_amended.1
  · decide
  · decide
  · norm_num [c7LowPeInfo, impliedGrowth]

/-- Claim C8 counterexample: a raw beta of 3.0 reaches the snapshot as
3.0 — no 2.5 ceiling is applied anywhere in the assembler. -/
theorem C8_beta_ceiling_counterexample :
    (fetch_stock_data "T" c8Info emptyTable emptyTable emptyTable fxFail).map
      StockSnapshot.beta = some 3 ∧
    (3 : ℚ) ≠ 5 / 2 := by
  constructor
  · norm_num +decide [fetch_stock_data, get_ttm_value, safe_get_row,
      lookupAlias, lookupStr, get_exchange_rate, calculate_sane_growth_rate,
      impliedGrowth, determine_sector, strHas, occursIn, leadsList, round2,
      roundHalfEvenZ, pyOrQ, pyOrS, peTruthyBelow40, firstBalanceVal, c8Info,
      emptyTable, fxFail]
  · norm_num

/-- Claim C8 amended: the snapshot's beta is the raw `info` beta passed
through unchanged for every sector and market capitalization — there is
no sanitization ceiling — and an absent beta defaults to 1.0. -/
theorem C8_beta_passthrough_amended :
    (∀ t : String, ∀ info : Info, ∀ cf inc bs : RawStatementTable,
      ∀ net : String → FxOutcome,
      (fetch_stock_data t info cf inc bs net).map StockSnapshot.beta
        = (fetch_stock_data t info cf inc bs net).map
            (fun _ => info.beta.getD 1)) ∧
    (fetch_stock_data "T" c8NoBetaInfo emptyTable emptyTable emptyTable
        fxFail).map StockSnapshot.beta = some 1 := by
  constructor
  · intro t info cf inc bs net
    simp only [fetch_stock_data]
    cases hp : pyOrQ info.currentPrice info.previousClose with
    | none => rfl
    | some p =>
      by_cases hz : p = 0
      · simp [hz]
      · simp [hz]
  · norm_num +decide [fetch_stock_data, get_ttm_value, safe_get_row,
      lookupAlias, lookupStr, get_exchange_rate, calculate_sane_growth_rate,
      impliedGrowth, determine_sector, strHas, occursIn, leadsList, round2,
      roundHalfEvenZ, pyOrQ, pyOrS, peTruthyBelow40, firstBalanceVal,
      c8NoBetaInfo, emptyTable, fxFail]

/-- Claim C9 counterexample: the emitted snapshot's ticker for input
"BRK.B" is "BRK.B" — the class-share separator is not rewritten to
"BRK-B"; no canonicalization exists. -/
theorem C9_ticker_counterexample :
    (fetch_stock_data "BRK.B" c9Info emptyTable emptyTable emptyTable
        fxFail).map StockSnapshot.ticker = some "BRK.B" ∧
    "BRK.B" ≠ "BRK-B" := by
  constructor
  · norm_num +decide [fetch_stock_data, get_ttm_value, safe_get_row,
      lookupAlias, lookupStr, get_exchange_rate, calculate_sane_growth_rate,
      impliedGrowth, determine_sector, strHas, occursIn, leadsList, round2,
      roundHalfEvenZ, pyOrQ, pyOrS, peTruthyBelow40, firstBalanceVal, c9Info,
      emptyTable, fxFail]
  · decide

/-- Claim C9 amended: the snapshot's ticker is the input symbol
unchanged — an identity mapping (hence trivially idempotent) with no
separator normalization: "BRK.B" stays "BRK.B". -/
theorem C9_ticker_identity_amended :
    (∀ t : String, ∀ info : Info, ∀ cf inc bs : RawStatementTable,
      ∀ net : String → FxOutcome,
      (fetch_stock_data t info cf inc bs net).map StockSnapshot.ticker
        = (fetch_stock_data t info cf inc bs net).map (fun _ => t)) ∧
    (fetch_stock_data "BRK.B" c9Info emptyTable emptyTable emptyTable
        fxFail).map StockSnapshot.ticker = some "BRK.B" := by
  constructor
  · intro t info cf inc bs net
    simp only [fetch_stock_data]
    cases hp : pyOrQ info.currentPrice info.previousClose with
    | none => rfl
    | some p =>
      by_cases hz : p = 0
      · simp [hz]
      · simp [hz]
  · norm_num +decide [fetch_stock_data, get_ttm_value, safe_get_row,
      lookupAlias, lookupStr, get_exchange_rate, calculate_sane_growth_rate,
      impliedGrowth, determine_sector, strHas, occursIn, leadsList, round2,
      roundHalfEvenZ, pyOrQ, pyOrS, peTruthyBelow40, firstBalanceVal, c9Info,
      emptyTable, fxFail]

/-- Claim C10: when the info snapshot has neither a truthy current price
nor a truthy previous close (the resolved price is absent or zero), the
assembler rejects — it returns no snapshot, and its outcome does not
depend on the statement tables or the FX oracle at all, even when full
valid statement data is present. -/
theorem C10_no_price_rejection :
    (∀ t : String, ∀ info : Info, ∀ cf inc bs : RawStatementTable,
      ∀ net : String → FxOutcome,
      pyOrQ info.currentPrice info.previousClose = none →
      fetch_stock_data t info cf inc bs net = none) ∧
    (∀ t : String, ∀ info : Info, ∀ cf inc bs : RawStatementTable,
      ∀ net : String → FxOutcome,
      pyOrQ info.currentPrice info.previousClose = some 0 →
      fetch_stock_data t info cf inc bs net = none) ∧
    (∀ t : String, ∀ info : Info,
      ∀ cf inc bs cf' inc' bs' : RawStatementTable,
      ∀ net net' : String → FxOutcome,
      (pyOrQ info.currentPrice info.previousClose = none ∨
        pyOrQ info.currentPrice info.previousClose = some 0) →
      fetch_stock_data t info cf inc bs net
        = fetch_stock_data t info cf' inc' bs' net') := by
  refine ⟨?_, ?_, ?_⟩
  · intro t info cf inc bs net h
    simp [fetch_stock_data, h]
  · intro t info cf inc bs net h
    simp [fetch_stock_data, h]
  · intro t info cf inc bs cf' inc' bs' net net' h
    rcases h with h | h <;> simp [fetch_stock_data, h]

/-- Claim C10 witness: with no price fields at all but full valid
statement data (the end-to-end scenario's tables), the assembler
rejects. -/
theorem C10_no_price_rejection_witness :
    fetch_stock_data "TEST" { c1Info with currentPrice := none } c1CashFlow
      c1Income emptyTable fxFail = none :=
  C10_no_price_rejection.1 "TEST" { c1Info with currentPrice := none }
    c1CashFlow c1Income emptyTable fxFail rfl
